import Mathlib

/-!
Shallow embedding of the ishkul backend (src/backend) in Lean 4.

The embedding follows the Python sources file by file:
  * utils/token.py   — JWT issuance and validation (namespace `token`)
  * db/mongo.py      — the Database staticmethods over an explicit store state
  * model/model.py   — the pydantic request and response models
  * main.py          — the FastAPI route handlers

Python dict values returned by the Database layer are modelled by `PyVal`,
with Python truthiness (`PyVal.truthy`) and subscripting (`PyVal.getItem`)
made explicit, because two handlers branch on the truthiness of a dict.
Time is an explicit `now : Nat` parameter in seconds; the Mongo gateway is a
pure state with two failure flags, one for reads and one for writes, each
standing for a PyMongoError raised by the corresponding pymongo call.
-/

/-- A bcrypt hash as returned by bcrypt.hashpw: a salt together with a
one-way digest. The digest is kept abstract as the password it was derived
from; bcrypt.checkpw recomputes it from the candidate password and the salt
and compares, so a check succeeds exactly when the passwords coincide. -/
structure BcryptHash where
  salt : String
  digest : String
deriving DecidableEq, Repr

/-- A Python value as produced and consumed by the Database layer:
None, booleans, strings, dicts and lists, plus the base64 text that
bson.json_util emits for a BSON binary value (kept abstract as the bytes it
encodes, since base64.b64decode inverts the encoding). -/
inductive PyVal where
  | none
  | bool (b : Bool)
  | str (s : String)
  | b64 (bytes : BcryptHash)
  | dict (entries : List (String × PyVal))
  | list (xs : List PyVal)

/-- Python truthiness of the modelled values: None and False are falsy, a
string, dict or list is truthy when non-empty; base64 text is non-empty. -/
def PyVal.truthy : PyVal → Bool
  | .none => false
  | .bool b => b
  | .str s => !s.isEmpty
  | .b64 _ => true
  | .dict es => !es.isEmpty
  | .list xs => !xs.isEmpty

/-- Python subscripting v[k] on a dict; `Option.none` stands for the
KeyError (or TypeError on a non-dict) that the subscript would raise. -/
def PyVal.getItem (v : PyVal) (k : String) : Option PyVal :=
  match v with
  | .dict es => es.lookup k
  | _ => Option.none

/-- bcrypt.hashpw: a salted one-way hash of the password. -/
def bcrypt.hashpw (password : String) (salt : String) : BcryptHash :=
  ⟨salt, password⟩

/-- bcrypt.checkpw: re-derives the digest from the candidate password and
the salt stored in the hash and compares. -/
def bcrypt.checkpw (password : String) (h : BcryptHash) : Bool :=
  password == h.digest

/-! ## utils/token.py -/

/-- The server-held signing secret (token.py line 5). -/
def SECRET_KEY : String := "super-secret-backend-key"

/-- The payload generate_jwt signs: the subject email and the expiry,
a Unix timestamp in seconds. -/
structure JwtPayload where
  email : String
  exp : Nat
deriving DecidableEq, Repr

/-- A token string as an input to jwt.decode: either a well-formed JWT
carrying a payload and the key it was signed with, or text that does not
parse as a JWT at all (jwt.decode raises InvalidTokenError on it). -/
inductive TokenString where
  | jwt (payload : JwtPayload) (key : String)
  | garbage (s : String)
deriving DecidableEq, Repr

/-- token.generate_jwt (token.py lines 9-16): signs a payload whose email is
the argument and whose exp is the current time plus one day (86400 seconds),
with SECRET_KEY. -/
def token.generate_jwt (email : String) (now : Nat) : TokenString :=
  .jwt ⟨email, now + 86400⟩ SECRET_KEY

/-- token.decode_jwt (token.py lines 18-33): jwt.decode with SECRET_KEY and
HS256. A garbage token raises InvalidTokenError, a wrong-key token fails the
signature check, an expired token (exp strictly in the past, PyJWT with zero
leeway) raises ExpiredSignatureError; every handler prints and the function
returns None, modelled as `Option.none`. -/
def token.decode_jwt (t : TokenString) (now : Nat) : Option JwtPayload :=
  match t with
  | .garbage _ => Option.none
  | .jwt p key =>
    if key != SECRET_KEY then Option.none
    else if p.exp < now then Option.none
    else some p

/-- The names bound at module scope in utils/token.py: the jwt import, the
datetime imports, the two exception names, SECRET_KEY, and the class token
itself. decode_jwt and validate are attributes of the class, not module
globals. -/
def tokenModuleNames : List String :=
  ["jwt", "datetime", "timedelta", "timezone",
   "ExpiredSignatureError", "InvalidTokenError", "SECRET_KEY", "token"]

/-- Outcome of calling a Python function: a returned value or a raised,
uncaught exception identified by its class name. -/
inductive PyOutcome (α : Type) where
  | ret (value : α)
  | exn (exnName : String)
deriving DecidableEq, Repr

/-- The value token.validate can return: the Python literal False, or the
result of decoded.get, an optional string. -/
inductive ValidateResult where
  | bool (b : Bool)
  | optStr (s : Option String)
deriving DecidableEq, Repr

/-- token.validate (token.py lines 35-40). Its body begins with the
bare-name call decode_jwt(token). Python resolves a bare name in a method
through the local scope, then the module globals, then builtins, and never
through the enclosing class body, so the call raises NameError unless
decode_jwt is bound at module scope. The local scope at the call holds only
the parameter token; the remaining lines model the body as written, reached
only if the name had resolved. -/
def token.validate (t : TokenString) (now : Nat) : PyOutcome ValidateResult :=
  if (["token"] ++ tokenModuleNames).contains "decode_jwt" = false then
    .exn "NameError"
  else
    match token.decode_jwt t now with
    | Option.none => .ret (.bool false)
    | some decoded => .ret (.optStr (some decoded.email))

/-! ## db/mongo.py -/

/-- A document of the released.users collection as add_user inserts it
(mongo.py lines 66-72). -/
structure UserDoc where
  first_name : String
  last_name : String
  email : String
  marketing_optin : Bool
  hash : BcryptHash
deriving DecidableEq, Repr

/-- A document of the prerelease.exam_paper collection as add_exam_paper
inserts it (mongo.py line 46). -/
structure ExamPaperDoc where
  metadata : List (String × String)
  resource_url : String
deriving DecidableEq, Repr

/-- The document store behind the Database class: the three collections the
code touches, plus one failure flag per kind of pymongo call. `readError`
true means find, find_one and count_documents raise PyMongoError;
`writeError` true means insert_one raises PyMongoError. -/
structure DBState where
  emails : List String
  examPapers : List ExamPaperDoc
  users : List UserDoc
  readError : Bool
  writeError : Bool
deriving DecidableEq, Repr

/-- bson.json_util rendering of a stored user document as main.py reads it
back: strings and booleans stay themselves and the BSON binary hash becomes
a dict holding its base64 text. The Mongo-assigned _id field is not
modelled; no handler reads it. -/
def userDocToPy (u : UserDoc) : PyVal :=
  .dict [("first_name", .str u.first_name),
         ("last_name", .str u.last_name),
         ("email", .str u.email),
         ("marketing_optin", .bool u.marketing_optin),
         ("hash", .dict [("$binary", .dict [("base64", .b64 u.hash), ("subType", .str "00")])])]

/-- Database.add_email (mongo.py lines 22-30): insert into
prerelease.email_addresses, returning a success dict, or a failure dict when
the insert raises. -/
def Database.add_email (email : String) (st : DBState) : PyVal × DBState :=
  if st.writeError then
    (.dict [("success", .bool false), ("error", .str "PyMongoError")], st)
  else
    (.dict [("success", .bool true)], { st with emails := st.emails ++ [email] })

/-- Database.get_emails (mongo.py lines 32-40): list the stored email
documents, or None when the find raises. -/
def Database.get_emails (st : DBState) : Option (List String) :=
  if st.readError then Option.none else some st.emails

/-- Database.add_exam_paper (mongo.py lines 42-50): insert the document into
prerelease.exam_paper, returning a success dict, or a failure dict when the
insert raises. -/
def Database.add_exam_paper (resource_url : String) (metadata : List (String × String))
    (st : DBState) : PyVal × DBState :=
  if st.writeError then
    (.dict [("success", .bool false), ("error", .str "PyMongoError")], st)
  else
    (.dict [("success", .bool true)],
     { st with examPapers := st.examPapers ++ [⟨metadata, resource_url⟩] })

/-- Database.get_exam_papers (mongo.py lines 52-60): list the stored exam
paper documents, or None when the find raises. -/
def Database.get_exam_papers (st : DBState) : Option (List ExamPaperDoc) :=
  if st.readError then Option.none else some st.examPapers

/-- Database.add_user (mongo.py lines 62-76): insert the user document into
released.users, returning the dict with key success set to True, or, when
the insert raises PyMongoError, the dict with success set to False and an
error entry. Both returns are non-empty dicts. -/
def Database.add_user (first_name last_name email : String) (marketing_optin : Bool)
    (hash : BcryptHash) (st : DBState) : PyVal × DBState :=
  if st.writeError then
    (.dict [("success", .bool false), ("error", .str "PyMongoError")], st)
  else
    (.dict [("success", .bool true)],
     { st with users := st.users ++ [⟨first_name, last_name, email, marketing_optin, hash⟩] })

/-- Database.user_exists (mongo.py lines 78-85): count_documents on the
email filter compared with zero; when the count raises PyMongoError the
handler swallows it and returns True. -/
def Database.user_exists (email : String) (st : DBState) : Bool :=
  if st.readError then true
  else (st.users.filter (fun u => u.email == email)).length > 0

/-- find_one on released.users with an email filter: the first stored
document whose email matches, if any. -/
def findOne (users : List UserDoc) (email : String) : Option UserDoc :=
  users.find? (fun u => u.email == email)

/-- Database.get_user_by_email (mongo.py lines 87-95): a dict with the
json_util-rendered document under data and success True when find_one finds
a match; a dict with success False when it does not; a failure dict when
the find raises. All three returns are non-empty dicts. -/
def Database.get_user_by_email (email : String) (st : DBState) : PyVal :=
  if st.readError then
    .dict [("success", .bool false), ("error", .str "PyMongoError")]
  else
    match findOne st.users email with
    | some u => .dict [("data", userDocToPy u), ("success", .bool true)]
    | Option.none => .dict [("success", .bool false)]

/-- Attributes of an index as pymongo's create_index builds it: the indexed
field and whether the unique option was set. -/
structure IndexSpec where
  field : String
  unique : Bool
deriving DecidableEq, Repr

/-- The index created on released.users at module load (mongo.py line 98):
create_index is called with only the key name, so the unique option keeps
its pymongo default of False. -/
def usersEmailIndex : IndexSpec := ⟨"email", false⟩

/-! ## model/model.py and main.py -/

/-- RegisterAccountRequest (model.py lines 12-17), after pydantic has
validated shape and email syntax. -/
structure RegisterAccountRequest where
  first_name : String
  last_name : String
  email : String
  password : String
  marketing_optin : Bool
deriving DecidableEq, Repr

/-- LoginRequest (model.py lines 19-21). -/
structure LoginRequest where
  email : String
  password : String
deriving DecidableEq, Repr

/-- LoginResponse (model.py lines 23-27). -/
structure LoginResponse where
  email : String
  first_name : String
  last_name : String
  token : TokenString
deriving DecidableEq, Repr

/-- StatusResponse (model.py lines 29-31). -/
structure StatusResponse where
  status : String
  message : String
deriving DecidableEq, Repr

/-- ExamPapersResponse (model.py lines 33-35): status plus a data field
that the schema requires to be a list. -/
structure ExamPapersResponse where
  status : String
  data : List ExamPaperDoc
deriving DecidableEq, Repr

/-- What an endpoint call can produce: a validated success body, an
HTTPException the handler raised with a status code and detail, a request
body rejected by pydantic before the handler ran (FastAPI answers 422), a
handler return value rejected by the declared response_model (FastAPI
answers 500), or an uncaught Python exception inside the handler (FastAPI
answers 500). -/
inductive ApiResponse (β : Type) where
  | success (body : β)
  | httpError (statusCode : Nat) (detail : String)
  | validationError (loc : String)
  | serializationError (loc : String)
  | pythonError (exnName : String)
deriving DecidableEq, Repr

/-- The raw body of a POST /contrib/exam_paper request before validation. -/
structure RawExamPaperBody where
  metadata : List (String × String)
  resource_url : String
deriving DecidableEq, Repr

/-- Whether the first list of characters starts with the second. -/
def charListStartsWith : List Char → List Char → Bool
  | _, [] => true
  | [], _ :: _ => false
  | a :: as, b :: bs => a == b && charListStartsWith as bs

/-- Syntactic validity of an absolute http(s) URL as pydantic's HttpUrl
field type checks it on ExamPaperRequest.resource_url: an http or https
scheme, the scheme separator, and a non-empty host part containing no
space. -/
def isValidHttpUrl (s : String) : Bool :=
  let cs := s.toList
  let rest :=
    if charListStartsWith cs "http://".toList then some (cs.drop 7)
    else if charListStartsWith cs "https://".toList then some (cs.drop 8)
    else Option.none
  match rest with
  | Option.none => false
  | some r => !r.isEmpty && !(r.contains ' ')

/-- ExamPaperRequest (model.py lines 8-10), after validation. -/
structure ExamPaperRequest where
  metadata : List (String × String)
  resource_url : String
deriving DecidableEq, Repr

/-- Pydantic validation of a POST /contrib/exam_paper body against
ExamPaperRequest: the request object when resource_url is a syntactically
valid absolute URL, rejection otherwise. -/
def parseExamPaperRequest (body : RawExamPaperBody) : Option ExamPaperRequest :=
  if isValidHttpUrl body.resource_url then some ⟨body.metadata, body.resource_url⟩
  else Option.none

/-- The register_user handler (main.py lines 31-42): 409 when user_exists,
otherwise hash the password, call Database.add_user, test the returned dict
with Python not, and answer 500 on a falsy result or the success body
otherwise. -/
def register_user (request : RegisterAccountRequest) (salt : String) (st : DBState) :
    ApiResponse StatusResponse × DBState :=
  if Database.user_exists request.email st then
    (.httpError 409 "Email already in use", st)
  else
    let hashed_password := bcrypt.hashpw request.password salt
    let res := Database.add_user request.first_name request.last_name request.email
        request.marketing_optin hashed_password st
    if res.1.truthy = false then
      (.httpError 500 "Registration failed. Please try again later.", res.2)
    else
      (.success ⟨"success", "Registration successful"⟩, res.2)

/-- The login_user handler (main.py lines 44-59): fetch the user dict, test
it with Python not for the 404, then read hash, base64-decode, check the
password for the 401, and otherwise issue a token for the stored email and
return the login body. A failed subscript is the uncaught exception FastAPI
turns into a 500. -/
def login_user (request : LoginRequest) (now : Nat) (st : DBState) :
    ApiResponse LoginResponse :=
  let user := Database.get_user_by_email request.email st
  if user.truthy = false then
    .httpError 404 "User not found"
  else
    match user.getItem "data" with
    | Option.none => .pythonError "KeyError"
    | some data =>
      match ((data.getItem "hash").bind (fun h => h.getItem "$binary")).bind
          (fun b => b.getItem "base64") with
      | Option.none => .pythonError "KeyError"
      | some hv =>
        match hv with
        | .b64 storedHash =>
          if bcrypt.checkpw request.password storedHash = false then
            .httpError 401 "Invalid email or password"
          else
            match data.getItem "email", data.getItem "first_name", data.getItem "last_name" with
            | some (.str em), some (.str fn), some (.str ln) =>
              .success ⟨em, fn, ln, token.generate_jwt em now⟩
            | _, _, _ => .pythonError "KeyError"
        | _ => .pythonError "TypeError"

/-- The add_exam_paper endpoint (main.py lines 61-64) together with the
pydantic validation FastAPI runs first: a body whose resource_url fails the
URL check is answered 422 before the handler runs, so the store is not
touched; otherwise the handler calls Database.add_exam_paper, ignores its
result, and returns the success body. -/
def add_exam_paper (body : RawExamPaperBody) (st : DBState) :
    ApiResponse StatusResponse × DBState :=
  match parseExamPaperRequest body with
  | Option.none => (.validationError "resource_url", st)
  | some request =>
    let res := Database.add_exam_paper request.resource_url request.metadata st
    (.success ⟨"success", "Exam paper added successfully"⟩, res.2)

/-- The raw value the get_exam_papers handler returns (main.py lines 66-69)
before response_model validation: status success and whatever
Database.get_exam_papers produced, possibly None. -/
structure RawExamPapersReply where
  status : String
  data : Option (List ExamPaperDoc)
deriving DecidableEq, Repr

/-- The get_exam_papers handler body (main.py lines 67-69). -/
def get_exam_papers_handler (st : DBState) : RawExamPapersReply :=
  ⟨"success", Database.get_exam_papers st⟩

/-- FastAPI validation of the handler return value against
ExamPapersResponse: the data field must be a list, so a None there fails
serialization and the request ends in a 500. -/
def serializeExamPapersResponse (r : RawExamPapersReply) : ApiResponse ExamPapersResponse :=
  match r.data with
  | some papers => .success ⟨r.status, papers⟩
  | Option.none => .serializationError "data"

/-- The GET /contrib/exam_paper endpoint: handler body followed by
response_model validation. -/
def get_exam_papers (st : DBState) : ApiResponse ExamPapersResponse :=
  serializeExamPapersResponse (get_exam_papers_handler st)

/-- A route of the HTTP surface: verb and path. -/
structure Route where
  method : String
  path : String
deriving DecidableEq, Repr

/-- The routes registered on the FastAPI app in main.py, in source order
(lines 23-69). -/
def appRoutes : List Route :=
  [⟨"GET", "/health"⟩, ⟨"GET", "/"⟩, ⟨"POST", "/register"⟩, ⟨"POST", "/login"⟩,
   ⟨"POST", "/contrib/exam_paper"⟩, ⟨"GET", "/contrib/exam_paper"⟩]

/-- The request the load test in test/load/locustfile.py issues. -/
def locustNotifyMeTarget : Route := ⟨"POST", "/notifyme"⟩

/-- The empty store with a healthy gateway. -/
def initState : DBState := ⟨[], [], [], false, false⟩

/-! ## Theorems -/

/-- C1: the claim says token.validate fails closed, returning the subject
email on a valid token and False on every other input, never raising. The
code instead raises NameError on every call: the body's bare-name reference
to decode_jwt resolves through local then module scope, and decode_jwt is
only a class attribute. -/
theorem C1_validate_always_raises (t : TokenString) (now : Nat) :
    token.validate t now = .exn "NameError" := by
  simp [token.validate, tokenModuleNames]

/-- C2: the claim says a rejected Database.add_user write makes
POST /register answer a server error rather than success. At a state whose
gateway rejects inserts, add_user returns the dict with success set to
False, yet register_user returns the success body: the handler tests the
dict with Python not, and a non-empty dict is truthy, so the 500 branch is
unreachable. -/
theorem C2_register_success_despite_write_failure :
    (Database.add_user "John" "Doe" "john@example.com" true
        (bcrypt.hashpw "securepassword" "salt") ⟨[], [], [], false, true⟩).1.getItem
        "success" = some (.bool false) ∧
    ((Database.add_user "John" "Doe" "john@example.com" true
        (bcrypt.hashpw "securepassword" "salt") ⟨[], [], [], false, true⟩).1.truthy = true) ∧
    register_user ⟨"John", "Doe", "john@example.com", "securepassword", true⟩ "salt"
        ⟨[], [], [], false, true⟩ =
      (.success ⟨"success", "Registration successful"⟩, ⟨[], [], [], false, true⟩) := by
  refine ⟨rfl, rfl, rfl⟩

/-- C3: the claim says the HTTP surface includes POST /notifyme and
GET /notifyme. main.py registers no route with that path, although the
load test targets POST /notifyme and the Database layer implements the
email operations. -/
theorem C3_no_notifyme_route :
    appRoutes.contains locustNotifyMeTarget = false ∧
    appRoutes.all (fun r => r.path != "/notifyme") = true := by
  decide

/-- C5: a token issued at time T carries expiry exactly T plus 24 hours
(86400 seconds); decoding it one hour later yields the subject, and
decoding it 25 hours later is rejected. -/
theorem C5_token_expiry_window (e : String) (T : Nat) :
    token.generate_jwt e T = .jwt ⟨e, T + 86400⟩ SECRET_KEY ∧
    token.decode_jwt (token.generate_jwt e T) (T + 3600) = some ⟨e, T + 86400⟩ ∧
    token.decode_jwt (token.generate_jwt e T) (T + 90000) = Option.none := by
  refine ⟨rfl, ?_, ?_⟩ <;>
    simp [token.generate_jwt, token.decode_jwt]

/-- C7: a POST /contrib/exam_paper body whose resource_url fails the URL
syntax check is rejected by validation with a client error before the
handler runs, and the store is unchanged: no document is written. -/
theorem C7_invalid_url_rejected (body : RawExamPaperBody) (st : DBState)
    (h : isValidHttpUrl body.resource_url = false) :
    add_exam_paper body st = (.validationError "resource_url", st) := by
  unfold add_exam_paper parseExamPaperRequest
  rw [h]
  simp

/-- C7 witness: the concrete body with resource_url "not a url" at the
empty store. -/
theorem C7_invalid_url_rejected_witness :
    isValidHttpUrl "not a url" = false ∧
    add_exam_paper ⟨[], "not a url"⟩ initState =
      (.validationError "resource_url", initState) :=
  ⟨by decide, C7_invalid_url_rejected ⟨[], "not a url"⟩ initState (by decide)⟩

/-- C9: when the gateway raises during the duplicate pre-check,
Database.user_exists swallows the error and returns True, so register_user
answers the 409 duplicate-email conflict and the store is unchanged: no
insert happens. -/
theorem C9_precheck_error_blocks_registration (request : RegisterAccountRequest)
    (salt : String) (st : DBState) (h : st.readError = true) :
    Database.user_exists request.email st = true ∧
    register_user request salt st = (.httpError 409 "Email already in use", st) := by
  constructor
  · simp [Database.user_exists, h]
  · simp [register_user, Database.user_exists, h]

/-- C9 witness: a concrete registration at a store whose reads fail. -/
theorem C9_precheck_error_blocks_registration_witness :
    (⟨[], [], [], true, false⟩ : DBState).readError = true ∧
    (Database.user_exists "a@b.com" ⟨[], [], [], true, false⟩ = true ∧
     register_user ⟨"A", "B", "a@b.com", "pw", false⟩ "s" ⟨[], [], [], true, false⟩ =
       (.httpError 409 "Email already in use", ⟨[], [], [], true, false⟩)) :=
  ⟨rfl, C9_precheck_error_blocks_registration ⟨"A", "B", "a@b.com", "pw", false⟩ "s"
    ⟨[], [], [], true, false⟩ rfl⟩

/-- C10: when the gateway read fails during GET /contrib/exam_paper,
Database.get_exam_papers returns None rather than a tagged failure, the
handler builds a reply whose data field is None, and response_model
validation against ExamPapersResponse rejects it, so the request ends in a
response-serialization server error. -/
theorem C10_read_failure_serialization_error (st : DBState) (h : st.readError = true) :
    Database.get_exam_papers st = Option.none ∧
    get_exam_papers_handler st = ⟨"success", Option.none⟩ ∧
    get_exam_papers st = .serializationError "data" := by
  refine ⟨?_, ?_, ?_⟩ <;>
    simp [Database.get_exam_papers, get_exam_papers_handler, get_exam_papers,
      serializeExamPapersResponse, h]

/-- C10 witness: the concrete store whose reads fail. -/
theorem C10_read_failure_serialization_error_witness :
    (⟨[], [], [], true, false⟩ : DBState).readError = true ∧
    (Database.get_exam_papers ⟨[], [], [], true, false⟩ = Option.none ∧
     get_exam_papers_handler ⟨[], [], [], true, false⟩ = ⟨"success", Option.none⟩ ∧
     get_exam_papers ⟨[], [], [], true, false⟩ = .serializationError "data") :=
  ⟨rfl, C10_read_failure_serialization_error ⟨[], [], [], true, false⟩ rfl⟩

/-- C4 counterexample: the claim says the index created on the users
collection's email field is a unique index; mongo.py line 98 calls
create_index with only the key name, so the unique option keeps its default
of False. -/
theorem C4_counterexample_nonunique_index : usersEmailIndex.unique = false := rfl

/-- C4 amended: the index created on users.email is an ordinary, non-unique
index; it is the duplicate pre-check in POST /register alone that, under
sequential execution, preserves the invariant that no two stored user
documents share an email. -/
theorem C4_precheck_preserves_unique_emails (request : RegisterAccountRequest)
    (salt : String) (st : DBState)
    (h : (st.users.map (fun u => u.email)).Nodup) :
    usersEmailIndex = ⟨"email", false⟩ ∧
    ((register_user request salt st).2.users.map (fun u => u.email)).Nodup := by
  refine ⟨rfl, ?_⟩
  unfold register_user
  cases hex : Database.user_exists request.email st
  · have hnotin : request.email ∉ st.users.map (fun u => u.email) := by
      intro hmem
      rcases List.mem_map.mp hmem with ⟨u, hu, hue⟩
      cases hre : st.readError
      · simp only [Database.user_exists, hre, if_false, Bool.false_eq_true,
          decide_eq_false_iff_not, not_lt, Nat.le_zero, List.length_eq_zero] at hex
        have : u ∈ st.users.filter (fun v => v.email == request.email) := by
          simp [List.mem_filter, hu, hue]
        rw [hex] at this
        exact absurd this (List.not_mem_nil u)
      · simp [Database.user_exists, hre] at hex
    cases hw : st.writeError
    · simp only [Bool.false_eq_true, if_false, Database.add_user, hw, PyVal.truthy,
        List.isEmpty_cons, Bool.not_false]
      simp [List.nodup_append, h, hnotin]
    · simp only [Bool.false_eq_true, if_false, Database.add_user, hw, PyVal.truthy,
        List.isEmpty_cons, Bool.not_false]
      simpa using h
  · simpa using h

/-- C4 witness: the amended statement at the empty store. -/
theorem C4_precheck_preserves_unique_emails_witness :
    ((initState.users.map (fun u => u.email)).Nodup) ∧
    (usersEmailIndex = ⟨"email", false⟩ ∧
     ((register_user ⟨"A", "B", "a@b.c", "pw", true⟩ "s" initState).2.users.map
        (fun u => u.email)).Nodup) :=
  ⟨by simp [initState], C4_precheck_preserves_unique_emails ⟨"A", "B", "a@b.c", "pw", true⟩
    "s" initState (by simp [initState])⟩

/-- C6: after registering an account with email e and password p at the
empty store, POST /login with (e, p) succeeds with a body whose email is e
and whose token decodes to subject e, while POST /login with (e, p') for
p' different from p answers the 401 client error and carries no token. -/
theorem C6_login_after_register (fn ln e p p' salt : String) (mo : Bool) (now : Nat)
    (hne : p' ≠ p) :
    login_user ⟨e, p⟩ now (register_user ⟨fn, ln, e, p, mo⟩ salt initState).2 =
      .success ⟨e, fn, ln, token.generate_jwt e now⟩ ∧
    token.decode_jwt (token.generate_jwt e now) now = some ⟨e, now + 86400⟩ ∧
    login_user ⟨e, p'⟩ now (register_user ⟨fn, ln, e, p, mo⟩ salt initState).2 =
      .httpError 401 "Invalid email or password" := by
  have hreg : (register_user ⟨fn, ln, e, p, mo⟩ salt initState).2 =
      ⟨[], [], [⟨fn, ln, e, mo, ⟨salt, p⟩⟩], false, false⟩ := by
    simp [register_user, Database.user_exists, Database.add_user, bcrypt.hashpw,
      initState, PyVal.truthy]
  rw [hreg]
  refine ⟨?_, ?_, ?_⟩
  · simp [login_user, Database.get_user_by_email, findOne, userDocToPy, PyVal.truthy,
      PyVal.getItem, List.lookup, bcrypt.checkpw, token.generate_jwt]
  · simp [token.decode_jwt, token.generate_jwt]
  · simp [login_user, Database.get_user_by_email, findOne, userDocToPy, PyVal.truthy,
      PyVal.getItem, List.lookup, bcrypt.checkpw, hne]

/-- C6 witness: concrete registration and the two logins. -/
theorem C6_login_after_register_witness :
    "wrongpassword" ≠ "securepassword" ∧
    (login_user ⟨"j@d.com", "securepassword"⟩ 0
        (register_user ⟨"John", "Doe", "j@d.com", "securepassword", true⟩ "s" initState).2 =
        .success ⟨"j@d.com", "John", "Doe", token.generate_jwt "j@d.com" 0⟩ ∧
     token.decode_jwt (token.generate_jwt "j@d.com" 0) 0 = some ⟨"j@d.com", 0 + 86400⟩ ∧
     login_user ⟨"j@d.com", "wrongpassword"⟩ 0
        (register_user ⟨"John", "Doe", "j@d.com", "securepassword", true⟩ "s" initState).2 =
        .httpError 401 "Invalid email or password") :=
  ⟨by decide, C6_login_after_register "John" "Doe" "j@d.com" "securepassword"
    "wrongpassword" "s" true 0 (by decide)⟩

/-- C8: starting from a healthy store holding no account with the request's
email, the first POST /register succeeds with the success status, a second
POST /register with the same email answers the 409 conflict, and the store
then holds exactly one user document with that email. -/
theorem C8_duplicate_registration_conflict (request request2 : RegisterAccountRequest)
    (salt salt2 : String) (st : DBState)
    (hr : st.readError = false) (hw : st.writeError = false)
    (h0 : (st.users.filter (fun u => u.email == request.email)).length = 0)
    (he : request2.email = request.email) :
    (register_user request salt st).1 = .success ⟨"success", "Registration successful"⟩ ∧
    (register_user request2 salt2 (register_user request salt st).2).1 =
      .httpError 409 "Email already in use" ∧
    ((register_user request2 salt2 (register_user request salt st).2).2.users.filter
        (fun u => u.email == request.email)).length = 1 := by
  have hx : Database.user_exists request.email st = false := by
    simp [Database.user_exists, hr, h0]
  have hreg : register_user request salt st =
      (.success ⟨"success", "Registration successful"⟩,
       { st with users := st.users ++ [⟨request.first_name, request.last_name,
           request.email, request.marketing_optin, ⟨salt, request.password⟩⟩] }) := by
    simp [register_user, hx, Database.add_user, hw, bcrypt.hashpw, PyVal.truthy]
  rw [hreg]
  have hx2 : Database.user_exists request2.email
      { st with users := st.users ++ [⟨request.first_name, request.last_name,
          request.email, request.marketing_optin, ⟨salt, request.password⟩⟩] } = true := by
    simp [Database.user_exists, hr, he, List.filter_append, h0]
  refine ⟨rfl, ?_, ?_⟩
  · simp [register_user, hx2]
  · simp [register_user, hx2, List.filter_append, h0]

/-- C8 witness: the double registration at the empty store. -/
theorem C8_duplicate_registration_conflict_witness :
    initState.readError = false ∧ initState.writeError = false ∧
    (initState.users.filter
      (fun u => u.email == ("j@d.com" : String))).length = 0 ∧
    ((register_user ⟨"John", "Doe", "j@d.com", "pw", true⟩ "s" initState).1 =
       .success ⟨"success", "Registration successful"⟩ ∧
     (register_user ⟨"Jane", "Doe", "j@d.com", "pw2", false⟩ "t"
        (register_user ⟨"John", "Doe", "j@d.com", "pw", true⟩ "s" initState).2).1 =
       .httpError 409 "Email already in use" ∧
     ((register_user ⟨"Jane", "Doe", "j@d.com", "pw2", false⟩ "t"
        (register_user ⟨"John", "Doe", "j@d.com", "pw", true⟩ "s" initState).2).2.users.filter
        (fun u => u.email == ("j@d.com" : String))).length = 1) :=
  ⟨rfl, rfl, rfl,
   C8_duplicate_registration_conflict ⟨"John", "Doe", "j@d.com", "pw", true⟩
     ⟨"Jane", "Doe", "j@d.com", "pw2", false⟩ "s" "t" initState rfl rfl rfl rfl⟩
